import Mathlib

/-!
Shallow embedding of `src/speechWaveGenerator.cpp` (the NVSpeechPlayer
speech wave generator).

C `double` values are modelled as exact rationals (`ℚ`).  The transcendental
functions `sin`, `cos`, `exp`, the constant `M_PI`, the C library uniform
random stream `rand()/RAND_MAX`, and the fade utility
`calculateValueAtFadePosition` (declared in `utils.h`, which is not part of
this source tree) are abstract parameters bundled in an `Externals` record:
every theorem below holds for an arbitrary choice of these externals unless
it explicitly assumes their documented contract.
-/

/-- External mathematical and library functions the generator calls but does
not define: the transcendentals and π, the libc uniform random stream
(`rand()/RAND_MAX`, one fresh draw per index), and the fade/blend utility.
Modelled from the spec: `calculateValueAtFadePosition (dry, wet, weight)` is
an external shared DSP utility (`utils.h` is missing from the sources); only
its contract is pinned — weight 0 returns the dry first argument. -/
structure Externals where
  sin : ℚ → ℚ
  cos : ℚ → ℚ
  exp : ℚ → ℚ
  pi : ℚ
  rand : Nat → ℚ
  calculateValueAtFadePosition : ℚ → ℚ → ℚ → ℚ

/-- `const double PITWO = M_PI * 2`. -/
def PITWO (ext : Externals) : ℚ := ext.pi * 2

/-- The frame of synthesis control parameters (`speechPlayer_frame_t`,
declared in the external header; exactly the fields this source reads). -/
structure speechPlayer_frame_t where
  voicePitch : ℚ
  vibratoPitchOffset : ℚ
  vibratoSpeed : ℚ
  voiceTurbulenceAmplitude : ℚ
  glottalOpenQuotient : ℚ
  voiceAmplitude : ℚ
  aspirationAmplitude : ℚ
  cf1 : ℚ
  cf2 : ℚ
  cf3 : ℚ
  cf4 : ℚ
  cf5 : ℚ
  cf6 : ℚ
  cfN0 : ℚ
  cfNP : ℚ
  cb1 : ℚ
  cb2 : ℚ
  cb3 : ℚ
  cb4 : ℚ
  cb5 : ℚ
  cb6 : ℚ
  cbN0 : ℚ
  cbNP : ℚ
  ca1 : ℚ
  ca2 : ℚ
  ca3 : ℚ
  ca4 : ℚ
  ca5 : ℚ
  ca6 : ℚ
  caN0 : ℚ
  caNP : ℚ
  dcf1 : ℚ
  dcb1 : ℚ
  pf1 : ℚ
  pf2 : ℚ
  pf3 : ℚ
  pf4 : ℚ
  pf5 : ℚ
  pf6 : ℚ
  pb1 : ℚ
  pb2 : ℚ
  pb3 : ℚ
  pb4 : ℚ
  pb5 : ℚ
  pb6 : ℚ
  pa1 : ℚ
  pa2 : ℚ
  pa3 : ℚ
  pa4 : ℚ
  pa5 : ℚ
  pa6 : ℚ
  fricationAmplitude : ℚ
  gain : ℚ
deriving DecidableEq

/-- `class NoiseGenerator` state: `double lastValue`. -/
structure NoiseGenerator where
  lastValue : ℚ
deriving DecidableEq

/-- `NoiseGenerator()` : `lastValue(0.0)`. -/
def NoiseGenerator.init : NoiseGenerator := ⟨0⟩

/-- `NoiseGenerator::getNext`.  The fresh uniform draw
`(double)rand()/RAND_MAX` is supplied by the caller as `u` (the engine feeds
consecutive values of the `Externals.rand` stream).
`lastValue = u + 0.75*lastValue; return lastValue;` -/
def NoiseGenerator.getNext (u : ℚ) (g : NoiseGenerator) : ℚ × NoiseGenerator :=
  let lastValue := u + 0.75 * g.lastValue
  (lastValue, ⟨lastValue⟩)

/-- C `fmod(x, 1.0)`: `x - trunc(x)`, truncation toward zero, so the result
carries the sign of `x`. -/
def cTrunc (x : ℚ) : ℤ := if 0 ≤ x then ⌊x⌋ else ⌈x⌉

/-- C `fmod(x, 1.0)`. -/
def fmod1 (x : ℚ) : ℚ := x - cTrunc x

/-- `class FrequencyGenerator` state (`int sampleRate` modelled as `ℚ`,
`double lastCyclePos`). -/
structure FrequencyGenerator where
  sampleRate : ℚ
  lastCyclePos : ℚ
deriving DecidableEq

/-- `FrequencyGenerator(int sr)` : `sampleRate(sr), lastCyclePos(0)`. -/
def FrequencyGenerator.init (sr : ℚ) : FrequencyGenerator := ⟨sr, 0⟩

/-- `FrequencyGenerator::getNext`:
`cyclePos = fmod((frequency/sampleRate)+lastCyclePos, 1); lastCyclePos = cyclePos; return cyclePos;` -/
def FrequencyGenerator.getNext (frequency : ℚ) (g : FrequencyGenerator) :
    ℚ × FrequencyGenerator :=
  let cyclePos := fmod1 (frequency / g.sampleRate + g.lastCyclePos)
  (cyclePos, { g with lastCyclePos := cyclePos })

/-- `class VoiceGenerator` state. -/
structure VoiceGenerator where
  pitchGen : FrequencyGenerator
  vibratoGen : FrequencyGenerator
  aspirationGen : NoiseGenerator
  glottisOpen : Bool
deriving DecidableEq

/-- `VoiceGenerator(int sr)` : sub-generators at `sr`, `glottisOpen(false)`. -/
def VoiceGenerator.init (sr : ℚ) : VoiceGenerator :=
  ⟨FrequencyGenerator.init sr, FrequencyGenerator.init sr, NoiseGenerator.init, false⟩

/-- `VoiceGenerator::getNext(frame)`; `u` is the uniform draw consumed by the
aspiration noise generator. -/
def VoiceGenerator.getNext (ext : Externals) (u : ℚ) (frame : speechPlayer_frame_t)
    (v : VoiceGenerator) : ℚ × VoiceGenerator :=
  let sVib := v.vibratoGen.getNext frame.vibratoSpeed
  let vibrato := ext.sin (sVib.1 * PITWO ext) * 0.06 * frame.vibratoPitchOffset + 1
  let sPitch := v.pitchGen.getNext (frame.voicePitch * vibrato)
  let voice0 := sPitch.1
  let sAsp := v.aspirationGen.getNext u
  let aspiration := sAsp.1
  let turbulence := aspiration * frame.voiceTurbulenceAmplitude
  let glottisOpen := decide (frame.glottalOpenQuotient ≤ voice0)
  let turbulence := if glottisOpen then turbulence * 0.1 else turbulence
  let voice := voice0 * 2 - 1
  let voice := voice + turbulence
  (voice * frame.voiceAmplitude + aspiration * frame.aspirationAmplitude,
   ⟨sPitch.2, sVib.2, sAsp.2, glottisOpen⟩)

/-- `class Resonator` state.  The C constructor leaves `frequency`,
`bandwidth`, `a`, `b`, `c` unset (arbitrary values); since `setOnce` starts
`false` they are always recomputed before first use.  We set them to 0. -/
structure Resonator where
  sampleRate : ℚ
  frequency : ℚ
  bandwidth : ℚ
  anti : Bool
  setOnce : Bool
  a : ℚ
  b : ℚ
  c : ℚ
  p1 : ℚ
  p2 : ℚ
deriving DecidableEq

/-- `Resonator(int sampleRate, bool anti=false)`. -/
def Resonator.init (sr : ℚ) (anti : Bool) : Resonator :=
  ⟨sr, 0, 0, anti, false, 0, 0, 0, 0, 0⟩

/-- The coefficient recomputation body of `Resonator::setParams` (the part
inside the cache guard).  Returns the `(a, b, c)` triple together with a
flag recording whether the anti-resonance inversion branch (the one
containing the division `a = 1.0/a`) was executed. -/
def Resonator.computeCoefs (ext : Externals) (sampleRate : ℚ) (anti : Bool)
    (frequency bandwidth : ℚ) : (ℚ × ℚ × ℚ) × Bool :=
  let r := ext.exp ((-ext.pi) / sampleRate * bandwidth)
  let c := -(r * r)
  let b := r * ext.cos (PITWO ext / sampleRate * (-frequency)) * 2
  let a := 1 - b - c
  if anti ∧ frequency ≠ 0 then
    let a2 := 1 / a
    ((a2, b * (-a2), c * (-a2)), true)
  else
    ((a, b, c), false)

/-- `Resonator::setParams`: recompute coefficients only when the parameters
differ from the cached pair (or nothing was ever cached), then mark the cache
valid. -/
def Resonator.setParams (ext : Externals) (frequency bandwidth : ℚ) (z : Resonator) :
    Resonator :=
  if ¬ z.setOnce = true ∨ frequency ≠ z.frequency ∨ bandwidth ≠ z.bandwidth then
    let abc := (Resonator.computeCoefs ext z.sampleRate z.anti frequency bandwidth).1
    { z with frequency := frequency, bandwidth := bandwidth,
             a := abc.1, b := abc.2.1, c := abc.2.2, setOnce := true }
  else
    { z with setOnce := true }

/-- `Resonator::resonate`:
`setParams(frequency,bandwidth); out = a*in + b*p1 + c*p2; p2 = p1; p1 = anti ? in : out; return out;` -/
def Resonator.resonate (ext : Externals) (inp frequency bandwidth : ℚ)
    (z : Resonator) : ℚ × Resonator :=
  let z1 := z.setParams ext frequency bandwidth
  let out := z1.a * inp + z1.b * z1.p1 + z1.c * z1.p2
  (out, { z1 with p2 := z1.p1, p1 := if z1.anti then inp else out })

/-- Run a resonator over a list of `(input, frequency, bandwidth)` calls,
collecting the outputs. -/
def Resonator.run (ext : Externals) : Resonator → List (ℚ × ℚ × ℚ) → List ℚ
  | _, [] => []
  | z, t :: rest =>
    let s := z.resonate ext t.1 t.2.1 t.2.2
    s.1 :: Resonator.run ext s.2 rest

/-- Modelled from the spec: the coefficient derivation written the way the
spec words it — `r = exp(-π·bandwidth/sampleRate)`, `c = -r²`,
`b = 2·r·cos(2π·freq/sampleRate)`, `a = 1 - b - c`, and in anti-resonance
mode with `freq ≠ 0` the inversion `a = 1/a; c = c·(-a); b = b·(-a)`. -/
def specCoefs (ext : Externals) (sampleRate : ℚ) (anti : Bool)
    (frequency bandwidth : ℚ) : ℚ × ℚ × ℚ :=
  let r := ext.exp (-ext.pi * bandwidth / sampleRate)
  let c := -(r * r)
  let b := 2 * r * ext.cos (2 * ext.pi * frequency / sampleRate)
  let a := 1 - b - c
  if anti ∧ frequency ≠ 0 then
    (1 / a, b * (-(1 / a)), c * (-(1 / a)))
  else
    (a, b, c)

/-- Modelled from the spec: the unmemoized reference resonator — identical
recurrence and memory shift, but the coefficients are recomputed from
`specCoefs` on every call (no parameter cache). -/
structure RefResonator where
  sampleRate : ℚ
  anti : Bool
  p1 : ℚ
  p2 : ℚ
deriving DecidableEq

/-- One call of the unmemoized reference resonator. -/
def RefResonator.resonate (ext : Externals) (inp frequency bandwidth : ℚ)
    (z : RefResonator) : ℚ × RefResonator :=
  let abc := specCoefs ext z.sampleRate z.anti frequency bandwidth
  let out := abc.1 * inp + abc.2.1 * z.p1 + abc.2.2 * z.p2
  (out, { z with p2 := z.p1, p1 := if z.anti then inp else out })

/-- Run the reference resonator over a list of calls. -/
def RefResonator.run (ext : Externals) : RefResonator → List (ℚ × ℚ × ℚ) → List ℚ
  | _, [] => []
  | z, t :: rest =>
    let s := z.resonate ext t.1 t.2.1 t.2.2
    s.1 :: RefResonator.run ext s.2 rest

/-- `class CascadeFormantGenerator` state. -/
structure CascadeFormantGenerator where
  sampleRate : ℚ
  r1 : Resonator
  r2 : Resonator
  r3 : Resonator
  r4 : Resonator
  r5 : Resonator
  r6 : Resonator
  rN0 : Resonator
  rNP : Resonator
deriving DecidableEq

/-- `CascadeFormantGenerator(int sr)`: six plain resonators, `rN0` in
anti-resonance mode, `rNP` plain. -/
def CascadeFormantGenerator.init (sr : ℚ) : CascadeFormantGenerator :=
  ⟨sr, Resonator.init sr false, Resonator.init sr false, Resonator.init sr false,
   Resonator.init sr false, Resonator.init sr false, Resonator.init sr false,
   Resonator.init sr true, Resonator.init sr false⟩

/-- `CascadeFormantGenerator::getNext`. -/
def CascadeFormantGenerator.getNext (ext : Externals) (frame : speechPlayer_frame_t)
    (glottisOpen : Bool) (input : ℚ) (g : CascadeFormantGenerator) :
    ℚ × CascadeFormantGenerator :=
  let input := input / 2
  let output := input
  let s1 :=
    if glottisOpen then
      g.r1.resonate ext output (frame.cf1 + frame.dcf1) (frame.cb1 + frame.dcb1)
    else
      g.r1.resonate ext output frame.cf1 frame.cb1
  let output := ext.calculateValueAtFadePosition output s1.1 frame.ca1
  let s2 := g.r2.resonate ext output frame.cf2 frame.cb2
  let output := ext.calculateValueAtFadePosition output s2.1 frame.ca2
  let s3 := g.r3.resonate ext output frame.cf3 frame.cb3
  let output := ext.calculateValueAtFadePosition output s3.1 frame.ca3
  let s4 := g.r4.resonate ext output frame.cf4 frame.cb4
  let output := ext.calculateValueAtFadePosition output s4.1 frame.ca4
  let s5 := g.r5.resonate ext output frame.cf5 frame.cb5
  let output := ext.calculateValueAtFadePosition output s5.1 frame.ca5
  let s6 := g.r6.resonate ext output frame.cf6 frame.cb6
  let output := ext.calculateValueAtFadePosition output s6.1 frame.ca6
  let sN0 := g.rN0.resonate ext output frame.cfN0 frame.cbN0
  let output := ext.calculateValueAtFadePosition output sN0.1 frame.caN0
  let sNP := g.rNP.resonate ext output frame.cfNP frame.cbNP
  let output := ext.calculateValueAtFadePosition output sNP.1 frame.caNP
  (output,
   { g with r1 := s1.2, r2 := s2.2, r3 := s3.2, r4 := s4.2, r5 := s5.2,
            r6 := s6.2, rN0 := sN0.2, rNP := sNP.2 })

/-- `class ParallelFormantGenerator` state. -/
structure ParallelFormantGenerator where
  sampleRate : ℚ
  r1 : Resonator
  r2 : Resonator
  r3 : Resonator
  r4 : Resonator
  r5 : Resonator
  r6 : Resonator
deriving DecidableEq

/-- `ParallelFormantGenerator(int sr)`. -/
def ParallelFormantGenerator.init (sr : ℚ) : ParallelFormantGenerator :=
  ⟨sr, Resonator.init sr false, Resonator.init sr false, Resonator.init sr false,
   Resonator.init sr false, Resonator.init sr false, Resonator.init sr false⟩

/-- `ParallelFormantGenerator::getNext`. -/
def ParallelFormantGenerator.getNext (ext : Externals) (frame : speechPlayer_frame_t)
    (input : ℚ) (g : ParallelFormantGenerator) : ℚ × ParallelFormantGenerator :=
  let input := input / 2
  let output := input
  let s1 := g.r1.resonate ext input frame.pf1 frame.pb1
  let output := output + ext.calculateValueAtFadePosition input (s1.1 - input) frame.pa1
  let s2 := g.r2.resonate ext input frame.pf2 frame.pb2
  let output := output + ext.calculateValueAtFadePosition input (s2.1 - input) frame.pa2
  let s3 := g.r3.resonate ext input frame.pf3 frame.pb3
  let output := output + ext.calculateValueAtFadePosition input (s3.1 - input) frame.pa3
  let s4 := g.r4.resonate ext input frame.pf4 frame.pb4
  let output := output + ext.calculateValueAtFadePosition input (s4.1 - input) frame.pa4
  let s5 := g.r5.resonate ext input frame.pf5 frame.pb5
  let output := output + ext.calculateValueAtFadePosition input (s5.1 - input) frame.pa5
  let s6 := g.r6.resonate ext input frame.pf6 frame.pb6
  let output := output + ext.calculateValueAtFadePosition input (s6.1 - input) frame.pa6
  (output,
   { g with r1 := s1.2, r2 := s2.2, r3 := s3.2, r4 := s4.2, r5 := s5.2, r6 := s6.2 })

/-- `class SpeechWaveGeneratorImpl` state.  The frame manager is modelled as
an optional frame source `Nat → Option speechPlayer_frame_t`; `frameTick`
counts the `getCurrentFrame` calls made so far (the source advances its own
notion of elapsed time by one sample per call), and `randIdx` is the position
in the libc global `rand()` stream. -/
structure SpeechWaveGeneratorImpl where
  sampleRate : ℚ
  voiceGenerator : VoiceGenerator
  fricGenerator : NoiseGenerator
  cascade : CascadeFormantGenerator
  parallel : ParallelFormantGenerator
  frameManager : Option (Nat → Option speechPlayer_frame_t)
  frameTick : Nat
  randIdx : Nat

/-- `SpeechWaveGeneratorImpl(int sr)` / `SpeechWaveGenerator::create`:
all sub-generators fresh, `frameManager(NULL)`. -/
def SpeechWaveGeneratorImpl.create (sr : ℚ) : SpeechWaveGeneratorImpl :=
  ⟨sr, VoiceGenerator.init sr, NoiseGenerator.init, CascadeFormantGenerator.init sr,
   ParallelFormantGenerator.init sr, none, 0, 0⟩

/-- `SpeechWaveGeneratorImpl::setFrameManager`. -/
def SpeechWaveGeneratorImpl.setFrameManager
    (fm : Nat → Option speechPlayer_frame_t) (e : SpeechWaveGeneratorImpl) :
    SpeechWaveGeneratorImpl :=
  { e with frameManager := some fm }

/-- The loop body of `generate` for a tick whose frame is present:
voice, cascade, frication, parallel, mix by `gain`, scale by 4000 and clamp
to `[-32000, 32000]`.  Consumes two draws of the global `rand()` stream
(aspiration, then frication). -/
def SpeechWaveGeneratorImpl.genTickFrame (ext : Externals)
    (frame : speechPlayer_frame_t) (e : SpeechWaveGeneratorImpl) :
    ℚ × SpeechWaveGeneratorImpl :=
  let sv := e.voiceGenerator.getNext ext (ext.rand e.randIdx) frame
  let sc := e.cascade.getNext ext frame sv.2.glottisOpen sv.1
  let sf := e.fricGenerator.getNext (ext.rand (e.randIdx + 1))
  let fric := sf.1 * frame.fricationAmplitude
  let sp := e.parallel.getNext ext frame fric
  let out := (sc.1 + sp.1) * frame.gain
  (max (min (out * 4000) 32000) (-32000),
   { e with voiceGenerator := sv.2, fricGenerator := sf.2, cascade := sc.2,
            parallel := sp.2, randIdx := e.randIdx + 2 })

/-- One iteration of the `generate` loop: call `getCurrentFrame` (advancing
the source's clock), then either synthesize a sample or write silence. -/
def SpeechWaveGeneratorImpl.genTick (ext : Externals)
    (fm : Nat → Option speechPlayer_frame_t) (e : SpeechWaveGeneratorImpl) :
    ℚ × SpeechWaveGeneratorImpl :=
  let e1 := { e with frameTick := e.frameTick + 1 }
  match fm e.frameTick with
  | none => (0, e1)
  | some frame => SpeechWaveGeneratorImpl.genTickFrame ext frame e1

/-- Iterate `genTick` `n` times, collecting the produced sample values. -/
def SpeechWaveGeneratorImpl.genTicks (ext : Externals)
    (fm : Nat → Option speechPlayer_frame_t) :
    Nat → SpeechWaveGeneratorImpl → List ℚ × SpeechWaveGeneratorImpl
  | 0, e => ([], e)
  | n + 1, e =>
    let s := SpeechWaveGeneratorImpl.genTick ext fm e
    let t := SpeechWaveGeneratorImpl.genTicks ext fm n s.2
    (s.1 :: t.1, t.2)

/-- Overwrite the first `vs.length` slots of the caller's buffer with the
values `vs`, leaving the remaining slots untouched (the C loop writes
`sampleBuf[i]` for `i < sampleCount` only). -/
def writeSamples : List ℚ → List ℚ → List ℚ
  | buf, [] => buf
  | [], _ :: _ => []
  | _ :: bs, v :: vs => v :: writeSamples bs vs

/-- `SpeechWaveGeneratorImpl::generate(sampleCount, sampleBuf)`:
`if(!frameManager) return;` then the per-sample loop. -/
def SpeechWaveGeneratorImpl.generate (ext : Externals) (sampleCount : Nat)
    (sampleBuf : List ℚ) (e : SpeechWaveGeneratorImpl) :
    List ℚ × SpeechWaveGeneratorImpl :=
  match e.frameManager with
  | none => (sampleBuf, e)
  | some fm =>
    let s := SpeechWaveGeneratorImpl.genTicks ext fm sampleCount e
    (writeSamples sampleBuf s.1, s.2)

/-- Hard clamp to `[-32000, 32000]` — `max(min(x, 32000), -32000)`. -/
def clamp16 (x : ℚ) : ℚ := max (min x 32000) (-32000)

/-- The documented contract of the external fade utility: weight 0 returns
the dry (first) argument unchanged. -/
def BlendZeroDry (ext : Externals) : Prop :=
  ∀ dry wet : ℚ, ext.calculateValueAtFadePosition dry wet 0 = dry

/-- All cascade and parallel amplitude weights of a frame are 0. -/
def AllZeroWeights (frame : speechPlayer_frame_t) : Prop :=
  frame.ca1 = 0 ∧ frame.ca2 = 0 ∧ frame.ca3 = 0 ∧ frame.ca4 = 0 ∧
  frame.ca5 = 0 ∧ frame.ca6 = 0 ∧ frame.caN0 = 0 ∧ frame.caNP = 0 ∧
  frame.pa1 = 0 ∧ frame.pa2 = 0 ∧ frame.pa3 = 0 ∧ frame.pa4 = 0 ∧
  frame.pa5 = 0 ∧ frame.pa6 = 0

/-- A concrete choice of externals used by witnesses: all transcendentals
constantly 0, the fade utility linear (`dry + (wet - dry) * weight`, the
curve used by NVSpeechPlayer's `utils.h`). -/
def ext0 : Externals :=
  ⟨fun _ => 0, fun _ => 0, fun _ => 0, 0, fun _ => 0,
   fun dry wet weight => dry + (wet - dry) * weight⟩

/-- A frame with every field 0. -/
def frame0 : speechPlayer_frame_t :=
  ⟨0, 0, 0, 0, 0, 0, 0,
   0, 0, 0, 0, 0, 0, 0, 0,
   0, 0, 0, 0, 0, 0, 0, 0,
   0, 0, 0, 0, 0, 0, 0, 0,
   0, 0,
   0, 0, 0, 0, 0, 0,
   0, 0, 0, 0, 0, 0,
   0, 0, 0, 0, 0, 0,
   0, 0⟩

/-- A frame source that never has a frame. -/
def fmNone : Nat → Option speechPlayer_frame_t := fun _ => none

/-- An engine with the always-empty frame source attached. -/
def engineNone : SpeechWaveGeneratorImpl :=
  SpeechWaveGeneratorImpl.setFrameManager fmNone (SpeechWaveGeneratorImpl.create 16000)

/-! Helper lemmas (shared; not tied to a single claim). -/

theorem clamp16_bounds (x : ℚ) : -32000 ≤ clamp16 x ∧ clamp16 x ≤ 32000 := by
  unfold clamp16
  refine ⟨le_max_right _ _, max_le (min_le_right _ _) (by norm_num)⟩

theorem genTick_bounds (ext : Externals) (fm : Nat → Option speechPlayer_frame_t)
    (e : SpeechWaveGeneratorImpl) :
    -32000 ≤ (SpeechWaveGeneratorImpl.genTick ext fm e).1 ∧
      (SpeechWaveGeneratorImpl.genTick ext fm e).1 ≤ 32000 := by
  unfold SpeechWaveGeneratorImpl.genTick
  cases hf : fm e.frameTick
  · exact ⟨by norm_num, by norm_num⟩
  · exact clamp16_bounds _

theorem genTicks_mem_bounds (ext : Externals) (fm : Nat → Option speechPlayer_frame_t) :
    ∀ (n : Nat) (e : SpeechWaveGeneratorImpl) (v : ℚ),
      v ∈ (SpeechWaveGeneratorImpl.genTicks ext fm n e).1 → -32000 ≤ v ∧ v ≤ 32000 := by
  intro n
  induction n with
  | zero =>
    intro e v hv
    exact absurd hv (by simp [SpeechWaveGeneratorImpl.genTicks])
  | succ n ih =>
    intro e v hv
    have hcons : (SpeechWaveGeneratorImpl.genTicks ext fm (n + 1) e).1 =
        (SpeechWaveGeneratorImpl.genTick ext fm e).1 ::
          (SpeechWaveGeneratorImpl.genTicks ext fm n
            (SpeechWaveGeneratorImpl.genTick ext fm e).2).1 := rfl
    rw [hcons] at hv
    rcases List.mem_cons.mp hv with h | h
    · subst h
      exact genTick_bounds ext fm e
    · exact ih _ _ h

theorem genTick_frameTick (ext : Externals) (fm : Nat → Option speechPlayer_frame_t)
    (e : SpeechWaveGeneratorImpl) :
    (SpeechWaveGeneratorImpl.genTick ext fm e).2.frameTick = e.frameTick + 1 := by
  unfold SpeechWaveGeneratorImpl.genTick
  cases hf : fm e.frameTick
  · rfl
  · rfl

theorem genTick_null_val (ext : Externals) (fm : Nat → Option speechPlayer_frame_t)
    (e : SpeechWaveGeneratorImpl) (h : fm e.frameTick = none) :
    (SpeechWaveGeneratorImpl.genTick ext fm e).1 = 0 := by
  unfold SpeechWaveGeneratorImpl.genTick
  rw [h]

theorem genTicks_length (ext : Externals) (fm : Nat → Option speechPlayer_frame_t) :
    ∀ (n : Nat) (e : SpeechWaveGeneratorImpl),
      ((SpeechWaveGeneratorImpl.genTicks ext fm n e).1).length = n := by
  intro n
  induction n with
  | zero => intro e; rfl
  | succ n ih =>
    intro e
    have hcons : (SpeechWaveGeneratorImpl.genTicks ext fm (n + 1) e).1 =
        (SpeechWaveGeneratorImpl.genTick ext fm e).1 ::
          (SpeechWaveGeneratorImpl.genTicks ext fm n
            (SpeechWaveGeneratorImpl.genTick ext fm e).2).1 := rfl
    rw [hcons, List.length_cons, ih]

theorem genTicks_null_entry (ext : Externals) (fm : Nat → Option speechPlayer_frame_t) :
    ∀ (n : Nat) (e : SpeechWaveGeneratorImpl) (i : Nat), i < n →
      fm (e.frameTick + i) = none →
      ((SpeechWaveGeneratorImpl.genTicks ext fm n e).1)[i]? = some 0 := by
  intro n
  induction n with
  | zero => intro e i hi; omega
  | succ n ih =>
    intro e i hi hnull
    have hcons : (SpeechWaveGeneratorImpl.genTicks ext fm (n + 1) e).1 =
        (SpeechWaveGeneratorImpl.genTick ext fm e).1 ::
          (SpeechWaveGeneratorImpl.genTicks ext fm n
            (SpeechWaveGeneratorImpl.genTick ext fm e).2).1 := rfl
    rw [hcons]
    cases i with
    | zero =>
      rw [List.getElem?_cons_zero]
      have h0 : fm e.frameTick = none := by simpa using hnull
      rw [genTick_null_val ext fm e h0]
    | succ i =>
      rw [List.getElem?_cons_succ]
      apply ih _ i (by omega)
      rw [genTick_frameTick]
      have harith : e.frameTick + 1 + i = e.frameTick + (i + 1) := by omega
      rw [harith]
      exact hnull

theorem writeSamples_of_length : ∀ (vs buf : List ℚ), buf.length = vs.length →
    writeSamples buf vs = vs := by
  intro vs
  induction vs with
  | nil =>
    intro buf h
    have hb : buf = [] := List.length_eq_zero.mp h
    subst hb
    rfl
  | cons v vs ih =>
    intro buf h
    cases buf with
    | nil => simp at h
    | cons b bs =>
      show v :: writeSamples bs vs = v :: vs
      rw [ih bs (by simpa using h)]

/-- Claim C5: one call of `VoiceGenerator.getNext` returns
`voice * voiceAmplitude + aspiration * aspirationAmplitude`, where
`voice = (voicePhase*2 - 1) + turbulence` and
`turbulence = aspiration * voiceTurbulenceAmplitude`, attenuated by `0.1`
exactly when the glottis is open; afterwards the published `glottisOpen`
flag equals `voicePhase ≥ glottalOpenQuotient`. -/
theorem C5_voice_sample_formula (ext : Externals) (u : ℚ)
    (frame : speechPlayer_frame_t) (v : VoiceGenerator) :
    (v.getNext ext u frame).2.glottisOpen =
      decide (frame.glottalOpenQuotient ≤
        (v.pitchGen.getNext (frame.voicePitch *
          (ext.sin ((v.vibratoGen.getNext frame.vibratoSpeed).1 * PITWO ext) * 0.06 *
            frame.vibratoPitchOffset + 1))).1) ∧
    (v.getNext ext u frame).1 =
      (let voicePhase := (v.pitchGen.getNext (frame.voicePitch *
          (ext.sin ((v.vibratoGen.getNext frame.vibratoSpeed).1 * PITWO ext) * 0.06 *
            frame.vibratoPitchOffset + 1))).1
       let aspiration := (v.aspirationGen.getNext u).1
       let turbulence := aspiration * frame.voiceTurbulenceAmplitude
       let turbulence :=
         if decide (frame.glottalOpenQuotient ≤ voicePhase) then turbulence * 0.1
         else turbulence
       ((voicePhase * 2 - 1) + turbulence) * frame.voiceAmplitude +
         aspiration * frame.aspirationAmplitude) :=
  ⟨rfl, rfl⟩

/-- Claim C7: every `NoiseGenerator.getNext` call combines the fresh uniform
draw `u` with the previous output as `last = u + 0.75 * last` (weight 1 on
the draw, 0.75 on the previous value), stores the new value and returns it;
the constructor starts from `last = 0`. -/
theorem C7_noise_recurrence (u : ℚ) (g : NoiseGenerator) :
    (g.getNext u).1 = u + 0.75 * g.lastValue ∧
    (g.getNext u).2.lastValue = (g.getNext u).1 ∧
    NoiseGenerator.init.lastValue = 0 :=
  ⟨rfl, rfl, rfl⟩

/-- Claim C8: in anti-resonance mode with `frequency = 0` the inversion step
is skipped — the division never executes and the coefficients are exactly
the plain resonance values `a = 1 - b - c`, `b = 2·r·cos 0`, `c = -r²`; and
whenever the inversion branch does execute, the frequency was nonzero. -/
theorem C8_zero_freq_skips_inversion (ext : Externals) (sr bandwidth : ℚ)
    (anti : Bool) (frequency bw2 : ℚ)
    (hdiv : (Resonator.computeCoefs ext sr anti frequency bw2).2 = true) :
    frequency ≠ 0 ∧
    (Resonator.computeCoefs ext sr true 0 bandwidth).2 = false ∧
    (Resonator.computeCoefs ext sr true 0 bandwidth).1 =
      (let r := ext.exp ((-ext.pi) / sr * bandwidth)
       (1 - 2 * r * ext.cos 0 - -(r * r), 2 * r * ext.cos 0, -(r * r))) := by
  refine ⟨?_, ?_, ?_⟩
  · intro heq
    subst heq
    simp [Resonator.computeCoefs] at hdiv
  · simp [Resonator.computeCoefs]
  · simp only [Resonator.computeCoefs, PITWO]
    rw [if_neg (by simp)]
    simp only [neg_zero, mul_zero, Prod.mk.injEq]
    refine ⟨by ring, by ring, trivial⟩

/-- Claim C8 witness: at `frequency = 1` the inversion flag is set and the
theorem yields `1 ≠ 0`; at `frequency = 0` the flag is clear. -/
theorem C8_witness :
    (1 : ℚ) ≠ 0 ∧ (Resonator.computeCoefs ext0 16000 true 0 100).2 = false :=
  ⟨(C8_zero_freq_skips_inversion ext0 16000 100 true 1 1
      (by with_unfolding_all decide)).1,
   (C8_zero_freq_skips_inversion ext0 16000 100 true 1 1
      (by with_unfolding_all decide)).2.1⟩

/-- Claim C9: if no frame manager was ever set, `generate` returns
immediately: the buffer and the whole engine state are unmodified. -/
theorem C9_generate_without_frame_manager (ext : Externals) (n : Nat)
    (buf : List ℚ) (e : SpeechWaveGeneratorImpl) (h : e.frameManager = none) :
    e.generate ext n buf = (buf, e) := by
  unfold SpeechWaveGeneratorImpl.generate
  rw [h]

/-- Claim C9 witness: a freshly created engine (frame manager `NULL`) leaves
a 2-slot buffer untouched when asked for 3 samples. -/
theorem C9_witness :
    (SpeechWaveGeneratorImpl.create 16000).generate ext0 3 [1, 2] =
      ([1, 2], SpeechWaveGeneratorImpl.create 16000) :=
  C9_generate_without_frame_manager ext0 3 [1, 2]
    (SpeechWaveGeneratorImpl.create 16000) rfl

/-- Claim C10: on a tick where the frame source returns null, the engine
produces a 0 sample and invokes no generator — the voice, frication,
cascade and parallel states and the `rand()` stream position are all exactly
unchanged. -/
theorem C10_null_frame_freezes_generators (ext : Externals)
    (fm : Nat → Option speechPlayer_frame_t) (e : SpeechWaveGeneratorImpl)
    (h : fm e.frameTick = none) :
    (SpeechWaveGeneratorImpl.genTick ext fm e).1 = 0 ∧
    (SpeechWaveGeneratorImpl.genTick ext fm e).2.voiceGenerator = e.voiceGenerator ∧
    (SpeechWaveGeneratorImpl.genTick ext fm e).2.fricGenerator = e.fricGenerator ∧
    (SpeechWaveGeneratorImpl.genTick ext fm e).2.cascade = e.cascade ∧
    (SpeechWaveGeneratorImpl.genTick ext fm e).2.parallel = e.parallel ∧
    (SpeechWaveGeneratorImpl.genTick ext fm e).2.randIdx = e.randIdx := by
  unfold SpeechWaveGeneratorImpl.genTick
  rw [h]
  exact ⟨rfl, rfl, rfl, rfl, rfl, rfl⟩

/-- Claim C10 witness: the always-null frame source on a fresh engine. -/
theorem C10_witness :
    (SpeechWaveGeneratorImpl.genTick ext0 fmNone (SpeechWaveGeneratorImpl.create 16000)).1 = 0 ∧
    (SpeechWaveGeneratorImpl.genTick ext0 fmNone (SpeechWaveGeneratorImpl.create 16000)).2.voiceGenerator =
      (SpeechWaveGeneratorImpl.create 16000).voiceGenerator ∧
    (SpeechWaveGeneratorImpl.genTick ext0 fmNone (SpeechWaveGeneratorImpl.create 16000)).2.fricGenerator =
      (SpeechWaveGeneratorImpl.create 16000).fricGenerator ∧
    (SpeechWaveGeneratorImpl.genTick ext0 fmNone (SpeechWaveGeneratorImpl.create 16000)).2.cascade =
      (SpeechWaveGeneratorImpl.create 16000).cascade ∧
    (SpeechWaveGeneratorImpl.genTick ext0 fmNone (SpeechWaveGeneratorImpl.create 16000)).2.parallel =
      (SpeechWaveGeneratorImpl.create 16000).parallel ∧
    (SpeechWaveGeneratorImpl.genTick ext0 fmNone (SpeechWaveGeneratorImpl.create 16000)).2.randIdx =
      (SpeechWaveGeneratorImpl.create 16000).randIdx :=
  C10_null_frame_freezes_generators ext0 fmNone (SpeechWaveGeneratorImpl.create 16000) rfl

/-- Claim C1: with a frame source attached and a caller buffer of `n` slots,
`generate` writes exactly `n` sample values (no sample skipped, whatever the
frame source returns), and every tick whose frame is null yields the sample
0. -/
theorem C1_generate_writes_exactly_count (ext : Externals)
    (fm : Nat → Option speechPlayer_frame_t) (e : SpeechWaveGeneratorImpl)
    (n : Nat) (buf : List ℚ) (i : Nat) (hfm : e.frameManager = some fm)
    (hbuf : buf.length = n) (hi : i < n)
    (hnull : fm (e.frameTick + i) = none) :
    ((e.generate ext n buf).1).length = n ∧
    ((e.generate ext n buf).1)[i]? = some 0 := by
  unfold SpeechWaveGeneratorImpl.generate
  rw [hfm]
  show (writeSamples buf (SpeechWaveGeneratorImpl.genTicks ext fm n e).1).length = n ∧
    (writeSamples buf (SpeechWaveGeneratorImpl.genTicks ext fm n e).1)[i]? = some 0
  rw [writeSamples_of_length _ _ (by rw [hbuf, genTicks_length])]
  exact ⟨genTicks_length ext fm n e, genTicks_null_entry ext fm n e i hi hnull⟩

/-- Claim C1 witness: the always-null frame source with a 2-slot buffer. -/
theorem C1_witness :
    ((engineNone.generate ext0 2 [3, 4]).1).length = 2 ∧
    ((engineNone.generate ext0 2 [3, 4]).1)[0]? = some 0 :=
  C1_generate_writes_exactly_count ext0 fmNone engineNone 2 [3, 4] 0
    rfl rfl (by decide) rfl

/-- Claim C3: the sample written on a frame tick equals
`clamp((cascadeOut + parallelOut) * gain * 4000, -32000, 32000)` (hard
truncation at the rails), and every sample value `generate` produces lies in
`[-32000, 32000]`, for arbitrary frames, gains and amplitudes. -/
theorem C3_sample_clamped (ext : Externals) (frame : speechPlayer_frame_t)
    (e : SpeechWaveGeneratorImpl) (fm : Nat → Option speechPlayer_frame_t)
    (n : Nat) (e2 : SpeechWaveGeneratorImpl) (v : ℚ)
    (hv : v ∈ (SpeechWaveGeneratorImpl.genTicks ext fm n e2).1) :
    (SpeechWaveGeneratorImpl.genTickFrame ext frame e).1 =
      clamp16 (((e.cascade.getNext ext frame
            (e.voiceGenerator.getNext ext (ext.rand e.randIdx) frame).2.glottisOpen
            (e.voiceGenerator.getNext ext (ext.rand e.randIdx) frame).1).1 +
          (e.parallel.getNext ext frame
            ((e.fricGenerator.getNext (ext.rand (e.randIdx + 1))).1 *
              frame.fricationAmplitude)).1) * frame.gain * 4000) ∧
    -32000 ≤ v ∧ v ≤ 32000 := by
  refine ⟨rfl, ?_⟩
  exact genTicks_mem_bounds ext fm n e2 v hv

/-- Claim C3 witness: the clamp identity at a concrete engine and the bounds
for the one sample the always-null source produces. -/
theorem C3_witness :
    (SpeechWaveGeneratorImpl.genTickFrame ext0 frame0 (SpeechWaveGeneratorImpl.create 16000)).1 =
      clamp16 ((((SpeechWaveGeneratorImpl.create 16000).cascade.getNext ext0 frame0
            ((SpeechWaveGeneratorImpl.create 16000).voiceGenerator.getNext ext0
              (ext0.rand (SpeechWaveGeneratorImpl.create 16000).randIdx) frame0).2.glottisOpen
            ((SpeechWaveGeneratorImpl.create 16000).voiceGenerator.getNext ext0
              (ext0.rand (SpeechWaveGeneratorImpl.create 16000).randIdx) frame0).1).1 +
          ((SpeechWaveGeneratorImpl.create 16000).parallel.getNext ext0 frame0
            (((SpeechWaveGeneratorImpl.create 16000).fricGenerator.getNext
              (ext0.rand ((SpeechWaveGeneratorImpl.create 16000).randIdx + 1))).1 *
              frame0.fricationAmplitude)).1) * frame0.gain * 4000) ∧
    -32000 ≤ (0 : ℚ) ∧ (0 : ℚ) ≤ 32000 :=
  C3_sample_clamped ext0 frame0 (SpeechWaveGeneratorImpl.create 16000) fmNone 1
    (SpeechWaveGeneratorImpl.create 16000) 0 (by with_unfolding_all decide)

/-- Claim C2 counterexample: with the fade utility honouring its zero-weight
contract (the linear blend of NVSpeechPlayer's `utils.h`) and a frame whose
amplitude weights are all 0, `ParallelFormantGenerator.getNext` on input 2
returns 7 — not the dry argument 2 and not the halved dry signal 1 — so the
parallel stage is not a pure passthrough as claimed. -/
theorem C2_counterexample :
    BlendZeroDry ext0 ∧ AllZeroWeights frame0 ∧
    ((ParallelFormantGenerator.init 16000).getNext ext0 frame0 2).1 = 7 ∧
    ((7 : ℚ) = 2 → False) ∧ ((7 : ℚ) = 1 → False) := by
  refine ⟨?_, ?_, ?_, ?_, ?_⟩
  · intro dry wet
    show dry + (wet - dry) * 0 = dry
    ring
  · exact ⟨rfl, rfl, rfl, rfl, rfl, rfl, rfl, rfl, rfl, rfl, rfl, rfl, rfl, rfl⟩
  · with_unfolding_all decide
  · with_unfolding_all decide
  · with_unfolding_all decide

/-- Claim C2 (amended): with all amplitude weights 0 and a fade utility that
returns its dry argument at weight 0, the cascade returns its halved input
unchanged, while the parallel stage returns the halved input plus six
zero-weight blend terms that each equal the halved input — 7 times the
halved input, not a passthrough. -/
theorem C2_zero_weight_outputs (ext : Externals) (hb : BlendZeroDry ext)
    (frame : speechPlayer_frame_t) (hz : AllZeroWeights frame)
    (glottisOpen : Bool) (input : ℚ) (cg : CascadeFormantGenerator)
    (pg : ParallelFormantGenerator) :
    (cg.getNext ext frame glottisOpen input).1 = input / 2 ∧
    (pg.getNext ext frame input).1 = 7 * (input / 2) := by
  obtain ⟨h1, h2, h3, h4, h5, h6, h7, h8, h9, h10, h11, h12, h13, h14⟩ := hz
  have hb2 : ∀ dry wet : ℚ, ext.calculateValueAtFadePosition dry wet 0 = dry := hb
  constructor
  · simp only [CascadeFormantGenerator.getNext, h1, h2, h3, h4, h5, h6, h7, h8, hb2]
  · simp only [ParallelFormantGenerator.getNext, h9, h10, h11, h12, h13, h14, hb2]
    ring

/-- Claim C2 witness: concrete zero-weight frame, linear blend, input 2. -/
theorem C2_witness :
    ((CascadeFormantGenerator.init 16000).getNext ext0 frame0 false 2).1 = 2 / 2 ∧
    ((ParallelFormantGenerator.init 16000).getNext ext0 frame0 2).1 = 7 * (2 / 2) :=
  C2_zero_weight_outputs ext0
    (fun dry wet => by show dry + (wet - dry) * 0 = dry; ring)
    frame0 ⟨rfl, rfl, rfl, rfl, rfl, rfl, rfl, rfl, rfl, rfl, rfl, rfl, rfl, rfl⟩ false 2
    (CascadeFormantGenerator.init 16000) (ParallelFormantGenerator.init 16000)

/-- Claim C6 counterexample: a frequency produced by the voice path
(`voicePitch = -8000`, vibrato inactive) makes the phase accumulator return
and store `-1/2`, which is not in `[0, 1)` and differs from the
mathematical mod-1 reduction `x - ⌊x⌋ = 1/2`: C `fmod` truncates toward
zero, so a negative dividend yields a negative phase. -/
theorem C6_counterexample :
    ((VoiceGenerator.init 16000).getNext ext0 0
        { frame0 with voicePitch := -8000 }).2.pitchGen.lastCyclePos = -(1 / 2) ∧
    ((FrequencyGenerator.init 16000).getNext (-8000)).1 = -(1 / 2) ∧
    ¬ (0 ≤ (-(1 / 2) : ℚ)) ∧
    (-(1 / 2) : ℚ) ≠ (-(1 / 2) : ℚ) - (⌊(-(1 / 2) : ℚ)⌋ : ℚ) := by
  refine ⟨?_, ?_, ?_, ?_⟩ <;> with_unfolding_all decide

/-- Claim C6 (amended): whenever the advanced position
`frequency/sampleRate + lastCyclePos` is nonnegative (in particular for all
nonnegative frequencies from a nonnegative stored phase),
`FrequencyGenerator.getNext` returns that position reduced modulo 1 — a
phase in `[0, 1)` — and stores it; for a negative advanced position C
`fmod` instead yields a value in `(-1, 0]`. -/
theorem C6_phase_accumulator_nonneg (g : FrequencyGenerator) (frequency : ℚ)
    (h : 0 ≤ frequency / g.sampleRate + g.lastCyclePos) :
    (g.getNext frequency).1 =
      (frequency / g.sampleRate + g.lastCyclePos) -
        (⌊frequency / g.sampleRate + g.lastCyclePos⌋ : ℚ) ∧
    0 ≤ (g.getNext frequency).1 ∧ (g.getNext frequency).1 < 1 ∧
    (g.getNext frequency).2.lastCyclePos = (g.getNext frequency).1 := by
  have hval : (g.getNext frequency).1 =
      fmod1 (frequency / g.sampleRate + g.lastCyclePos) := rfl
  have htr : cTrunc (frequency / g.sampleRate + g.lastCyclePos) =
      ⌊frequency / g.sampleRate + g.lastCyclePos⌋ := by
    unfold cTrunc
    rw [if_pos h]
  have h1 : fmod1 (frequency / g.sampleRate + g.lastCyclePos) =
      (frequency / g.sampleRate + g.lastCyclePos) -
        (⌊frequency / g.sampleRate + g.lastCyclePos⌋ : ℚ) := by
    unfold fmod1
    rw [htr]
  refine ⟨by rw [hval, h1], ?_, ?_, rfl⟩
  · rw [hval, h1]
    exact sub_nonneg.mpr (Int.floor_le _)
  · rw [hval, h1]
    have hfl := Int.sub_one_lt_floor (frequency / g.sampleRate + g.lastCyclePos)
    linarith

/-- Claim C6 witness: fresh generator at 16000 Hz, frequency 24000 — the
advanced position 3/2 is nonnegative and the stored phase is 1/2. -/
theorem C6_witness :
    ((FrequencyGenerator.init 16000).getNext 24000).1 =
      (24000 / (FrequencyGenerator.init 16000).sampleRate +
          (FrequencyGenerator.init 16000).lastCyclePos) -
        (⌊24000 / (FrequencyGenerator.init 16000).sampleRate +
            (FrequencyGenerator.init 16000).lastCyclePos⌋ : ℚ) ∧
    0 ≤ ((FrequencyGenerator.init 16000).getNext 24000).1 ∧
    ((FrequencyGenerator.init 16000).getNext 24000).1 < 1 ∧
    ((FrequencyGenerator.init 16000).getNext 24000).2.lastCyclePos =
      ((FrequencyGenerator.init 16000).getNext 24000).1 :=
  C6_phase_accumulator_nonneg (FrequencyGenerator.init 16000) 24000
    (by with_unfolding_all decide)

/-- The cache coherence invariant: whenever the Resonator's cache is marked
valid, the stored coefficients are exactly the ones recomputation would
produce from the stored parameter pair. -/
def Resonator.coefOK (ext : Externals) (z : Resonator) : Prop :=
  z.setOnce = true →
    (z.a, z.b, z.c) =
      (Resonator.computeCoefs ext z.sampleRate z.anti z.frequency z.bandwidth).1

theorem setParams_fields (ext : Externals) (f bw : ℚ) (z : Resonator)
    (h : z.coefOK ext) :
    (z.setParams ext f bw).sampleRate = z.sampleRate ∧
    (z.setParams ext f bw).anti = z.anti ∧
    (z.setParams ext f bw).p1 = z.p1 ∧
    (z.setParams ext f bw).p2 = z.p2 ∧
    (z.setParams ext f bw).setOnce = true ∧
    (z.setParams ext f bw).frequency = f ∧
    (z.setParams ext f bw).bandwidth = bw ∧
    ((z.setParams ext f bw).a, (z.setParams ext f bw).b, (z.setParams ext f bw).c) =
      (Resonator.computeCoefs ext z.sampleRate z.anti f bw).1 := by
  unfold Resonator.setParams
  by_cases hc : ¬ z.setOnce = true ∨ f ≠ z.frequency ∨ bw ≠ z.bandwidth
  · rw [if_pos hc]
    exact ⟨rfl, rfl, rfl, rfl, rfl, rfl, rfl, rfl⟩
  · rw [if_neg hc]
    push_neg at hc
    obtain ⟨hso, hf, hbw⟩ := hc
    subst hf
    subst hbw
    exact ⟨rfl, rfl, rfl, rfl, rfl, rfl, rfl, h hso⟩

/-- The cached (code) coefficient computation agrees with the spec's wording
of the derivation, provided the external cosine is an even function (the
code evaluates it at `-frequency`, the spec at `frequency`). -/
theorem coefs_agree (ext : Externals) (hcos : ∀ x : ℚ, ext.cos (-x) = ext.cos x)
    (sr : ℚ) (anti : Bool) (f bw : ℚ) :
    (Resonator.computeCoefs ext sr anti f bw).1 = specCoefs ext sr anti f bw := by
  simp only [Resonator.computeCoefs, specCoefs, PITWO]
  have h1 : (-ext.pi) / sr * bw = -ext.pi * bw / sr := by ring
  have h2 : ext.pi * 2 / sr * (-f) = -(2 * ext.pi * f / sr) := by ring
  rw [h1, h2, hcos]
  rw [apply_ite (Prod.fst (β := Bool))]
  split_ifs with h
  · simp only [Prod.mk.injEq]
    refine ⟨?_, ?_, ?_⟩
    · have hb : ext.exp (-ext.pi * bw / sr) * ext.cos (2 * ext.pi * f / sr) * 2 =
          2 * ext.exp (-ext.pi * bw / sr) * ext.cos (2 * ext.pi * f / sr) := by ring
      rw [hb]
    · ring_nf
    · ring_nf
  · simp only [Prod.mk.injEq]
    refine ⟨by ring, by ring, trivial⟩

theorem resonate_step (ext : Externals) (hcos : ∀ x : ℚ, ext.cos (-x) = ext.cos x)
    (inp f bw : ℚ) (z : Resonator) (hc : z.coefOK ext) :
    (z.resonate ext inp f bw).1 =
      (RefResonator.resonate ext inp f bw ⟨z.sampleRate, z.anti, z.p1, z.p2⟩).1 ∧
    (z.resonate ext inp f bw).2.sampleRate = z.sampleRate ∧
    (z.resonate ext inp f bw).2.anti = z.anti ∧
    (z.resonate ext inp f bw).2.p1 =
      (RefResonator.resonate ext inp f bw ⟨z.sampleRate, z.anti, z.p1, z.p2⟩).2.p1 ∧
    (z.resonate ext inp f bw).2.p2 =
      (RefResonator.resonate ext inp f bw ⟨z.sampleRate, z.anti, z.p1, z.p2⟩).2.p2 ∧
    Resonator.coefOK ext (z.resonate ext inp f bw).2 := by
  obtain ⟨h1, h2, h3, h4, h5, h6, h7, h8⟩ := setParams_fields ext f bw z hc
  have hspec : ((z.setParams ext f bw).a, (z.setParams ext f bw).b,
      (z.setParams ext f bw).c) = specCoefs ext z.sampleRate z.anti f bw := by
    rw [h8, coefs_agree ext hcos]
  have ha : (z.setParams ext f bw).a = (specCoefs ext z.sampleRate z.anti f bw).1 := by
    rw [← hspec]
  have hb : (z.setParams ext f bw).b = (specCoefs ext z.sampleRate z.anti f bw).2.1 := by
    rw [← hspec]
  have hcv : (z.setParams ext f bw).c = (specCoefs ext z.sampleRate z.anti f bw).2.2 := by
    rw [← hspec]
  have hval : (z.resonate ext inp f bw).1 =
      (RefResonator.resonate ext inp f bw ⟨z.sampleRate, z.anti, z.p1, z.p2⟩).1 := by
    show (z.setParams ext f bw).a * inp + (z.setParams ext f bw).b * (z.setParams ext f bw).p1 +
        (z.setParams ext f bw).c * (z.setParams ext f bw).p2 = _
    rw [ha, hb, hcv, h3, h4]
    rfl
  refine ⟨hval, h1, h2, ?_, ?_, ?_⟩
  · show (if (z.setParams ext f bw).anti then inp
        else (z.setParams ext f bw).a * inp +
          (z.setParams ext f bw).b * (z.setParams ext f bw).p1 +
          (z.setParams ext f bw).c * (z.setParams ext f bw).p2) = _
    rw [h2, ha, hb, hcv, h3, h4]
    rfl
  · show (z.setParams ext f bw).p1 = _
    rw [h3]
    rfl
  · intro _
    show ((z.setParams ext f bw).a, (z.setParams ext f bw).b, (z.setParams ext f bw).c) =
      (Resonator.computeCoefs ext (z.setParams ext f bw).sampleRate
        (z.setParams ext f bw).anti (z.setParams ext f bw).frequency
        (z.setParams ext f bw).bandwidth).1
    rw [h1, h2, h6, h7]
    exact h8

theorem run_sim (ext : Externals) (hcos : ∀ x : ℚ, ext.cos (-x) = ext.cos x) :
    ∀ (calls : List (ℚ × ℚ × ℚ)) (z : Resonator) (w : RefResonator),
      z.sampleRate = w.sampleRate → z.anti = w.anti → z.p1 = w.p1 → z.p2 = w.p2 →
      z.coefOK ext → Resonator.run ext z calls = RefResonator.run ext w calls := by
  intro calls
  induction calls with
  | nil => intro z w _ _ _ _ _; rfl
  | cons t rest ih =>
    intro z w hsr han hp1 hp2 hc
    have hw : w = (⟨z.sampleRate, z.anti, z.p1, z.p2⟩ : RefResonator) := by
      rw [hsr, han, hp1, hp2]
    subst hw
    obtain ⟨hv, k1, k2, k3, k4, k5⟩ := resonate_step ext hcos t.1 t.2.1 t.2.2 z hc
    show (z.resonate ext t.1 t.2.1 t.2.2).1 ::
        Resonator.run ext (z.resonate ext t.1 t.2.1 t.2.2).2 rest =
      ((⟨z.sampleRate, z.anti, z.p1, z.p2⟩ : RefResonator).resonate ext t.1 t.2.1 t.2.2).1 ::
        RefResonator.run ext
          ((⟨z.sampleRate, z.anti, z.p1, z.p2⟩ : RefResonator).resonate ext t.1 t.2.1 t.2.2).2 rest
    rw [hv]
    congr 1
    exact ih _ _ k1 k2 k3 k4 k5

/-- Claim C4: for every sequence of `resonate` calls starting from a fresh
Resonator, the outputs are identical to those of the unmemoized reference
resonator (`RefResonator`, spec coefficient derivation recomputed on every
call) — the parameter cache never changes any output.  The hypothesis that
the external cosine oracle is even bridges the code's `cos(2π/sr·(-f))`
with the spec's `cos(2π·f/sr)`. -/
theorem C4_cache_never_changes_output (ext : Externals)
    (hcos : ∀ x : ℚ, ext.cos (-x) = ext.cos x) (sr : ℚ) (anti : Bool)
    (calls : List (ℚ × ℚ × ℚ)) :
    Resonator.run ext (Resonator.init sr anti) calls =
      RefResonator.run ext ⟨sr, anti, 0, 0⟩ calls :=
  run_sim ext hcos calls (Resonator.init sr anti) ⟨sr, anti, 0, 0⟩ rfl rfl rfl rfl
    (fun h => Bool.noConfusion h)

/-- Claim C4 witness: three concrete calls (two with identical parameters,
so the second hits the cache) on an anti-resonance resonator. -/
theorem C4_witness :
    Resonator.run ext0 (Resonator.init 16000 true)
        [(1, 500, 100), (1, 500, 100), (2, 600, 50)] =
      RefResonator.run ext0 ⟨16000, true, 0, 0⟩
        [(1, 500, 100), (1, 500, 100), (2, 600, 50)] :=
  C4_cache_never_changes_output ext0 (fun _ => rfl) 16000 true
    [(1, 500, 100), (1, 500, 100), (2, 600, 50)]
